import Mathlib

/-!
Verification development for the IntraNest chat backend.

This file shallowly embeds the session-resolution and conversational
text-processing logic of the repository:

* `extract_session_from_request` (backend/api/chat.py, lines 43-167),
* `classify_intent` and `detect_topic_change`
  (backend/utils/conversational_text_processing.py),
* the error-handling boundaries `chat_completions_with_streaming`
  (backend/api/chat.py, lines 289-473) and `conversational_chat`
  (backend/api/conversational_chat.py, lines 47-83).

Python strings are modelled as Lean `String`s and, where a request field
can hold an arbitrary JSON value, as the small dynamic type `PyVal`.
Ambient effects of one call (readings of `datetime.now()`,
`datetime.utcnow()`, `int(datetime.now().timestamp())` and `uuid.uuid4().hex`)
are passed explicitly in an `Env` record.  Character-level operations
(`.lower()`, `.strip()`, `.split()`, substring `in`) are modelled for the
ASCII fragment, which covers every string the source manipulates here.
-/

/-! ## Python string primitives (ASCII fragment) -/

/-- ASCII lower-casing of a single character, as `str.lower()` acts on ASCII. -/
def lowerChar (c : Char) : Char :=
  if 65 ≤ c.toNat ∧ c.toNat ≤ 90 then Char.ofNat (c.toNat + 32) else c

/-- `str.lower()` on the ASCII fragment. -/
def pyLower (s : String) : String :=
  String.mk (s.data.map lowerChar)

/-- Whitespace characters removed by `str.strip()` / splitting on by `str.split()`
(the ASCII whitespace set). -/
def isPySpace (c : Char) : Bool :=
  c == ' ' || c == '\t' || c == '\n' || c == '\r' || c == Char.ofNat 11 || c == Char.ofNat 12

/-- Strip leading and trailing whitespace from a character list. -/
def stripChars (l : List Char) : List Char :=
  ((l.dropWhile isPySpace).reverse.dropWhile isPySpace).reverse

/-- `str.strip()`. -/
def pyStrip (s : String) : String :=
  String.mk (stripChars s.data)

/-- Auxiliary for `pySplit`: split a character list on whitespace runs,
accumulating the current word in reverse. -/
def splitWsAux : List Char → List Char → List (List Char)
  | [], acc => if acc.isEmpty then [] else [acc.reverse]
  | c :: rest, acc =>
    if isPySpace c then
      if acc.isEmpty then splitWsAux rest [] else acc.reverse :: splitWsAux rest []
    else
      splitWsAux rest (c :: acc)

/-- `str.split()` with no separator: split on whitespace runs, dropping empties. -/
def pySplit (s : String) : List String :=
  (splitWsAux s.data []).map String.mk

/-- Is `pre` a prefix of `l`?  (Models the inner loop of Python substring search.) -/
def listPrefixEq : List Char → List Char → Bool
  | [], _ => true
  | _ :: _, [] => false
  | a :: as, b :: bs => a == b && listPrefixEq as bs

/-- Python's substring test `needle in hay`. -/
def listContains (needle : List Char) : List Char → Bool
  | [] => listPrefixEq needle []
  | c :: cs => listPrefixEq needle (c :: cs) || listContains needle cs

/-- Substring test on strings: `needle in hay` in Python. -/
def strContains (needle hay : String) : Bool :=
  listContains needle.data hay.data

/-- Python slicing `s[:n]` (first `n` code points). -/
def strTake (s : String) (n : Nat) : String :=
  String.mk (s.data.take n)

/-! ## A miniature regular-expression engine

The source only uses patterns built from literal characters, the
word-boundary assertion `\b`, an unanchored gap `.*` (which does not cross
newlines) and a single optional character `s?`.  `RTok` is that fragment,
and `rsearch` is `re.search(...) is not None` for it. -/

inductive RTok where
  | lit : Char → RTok
  | wordB : RTok
  | anyGap : RTok
  | opt : Char → RTok
deriving DecidableEq

/-- Python `\w` over ASCII: letters, digits, underscore. -/
def isWordChar (c : Char) : Bool :=
  c.isAlphanum || c == '_'

/-- Does a word boundary fall between the previous character and the rest? -/
def atWordB (prev : Option Char) (rest : List Char) : Bool :=
  let pw := match prev with | some c => isWordChar c | none => false
  let nw := match rest with | c :: _ => isWordChar c | [] => false
  pw != nw

/-- Match a token list against a position in the subject, given the character
just before the position (`none` at the start of the subject).  The first
argument is recursion fuel; every recursive call strictly decreases
`pats.length + s.length`, so any fuel above that bound gives the fixpoint
semantics (structural recursion on the fuel keeps the function
kernel-computable). -/
def rmatchF : Nat → List RTok → Option Char → List Char → Bool
  | 0, _, _, _ => false
  | _ + 1, [], _, _ => true
  | _ + 1, .lit _ :: _, _, [] => false
  | fuel + 1, .lit c :: ps, _, x :: xs => x == c && rmatchF fuel ps (some x) xs
  | fuel + 1, .wordB :: ps, prev, s => atWordB prev s && rmatchF fuel ps prev s
  | fuel + 1, .anyGap :: ps, prev, s =>
    rmatchF fuel ps prev s ||
      (match s with
       | [] => false
       | x :: xs => x != '\n' && rmatchF fuel (.anyGap :: ps) (some x) xs)
  | fuel + 1, .opt c :: ps, prev, s =>
    rmatchF fuel ps prev s ||
      (match s with
       | [] => false
       | x :: xs => x == c && rmatchF fuel ps (some x) xs)

/-- Match with adequate fuel. -/
def rmatch (ps : List RTok) (prev : Option Char) (s : List Char) : Bool :=
  rmatchF (ps.length + s.length + 1) ps prev s

/-- Try to match at every start position of the subject. -/
def rsearchAux (ps : List RTok) : Option Char → List Char → Bool
  | prev, [] => rmatch ps prev []
  | prev, c :: cs => rmatch ps prev (c :: cs) || rsearchAux ps (some c) cs

/-- `re.search(pattern, s) is not None` for the pattern fragment. -/
def rsearch (ps : List RTok) (s : String) : Bool :=
  rsearchAux ps none s.data

/-- Lift a literal string to a sequence of literal tokens. -/
def lify (s : String) : List RTok :=
  s.data.map RTok.lit

/-- A `\b`-delimited literal pattern `\b...\b`. -/
def wpat (s : String) : List RTok :=
  RTok.wordB :: lify s ++ [RTok.wordB]

/-- A pattern `\bA.*B\b` (gap between two literals). -/
def gapPat (a b : String) : List RTok :=
  RTok.wordB :: lify a ++ RTok.anyGap :: lify b ++ [RTok.wordB]

/-! ## MD5 (RFC 1321), over byte lists represented as `Nat`s below 256

Models `hashlib.md5(x.encode()).hexdigest()`: UTF-8 encode, digest,
lowercase hex. All 32-bit arithmetic is `Nat` arithmetic mod `2 ^ 32`. -/

/-- The 64 MD5 sine-derived round constants. -/
def md5K : List Nat :=
  [3614090360, 3905402710, 606105819, 3250441966, 4118548399, 1200080426,
   2821735955, 4249261313, 1770035416, 2336552879, 4294925233, 2304563134,
   1804603682, 4254626195, 2792965006, 1236535329, 4129170786, 3225465664,
   643717713, 3921069994, 3593408605, 38016083, 3634488961, 3889429448,
   568446438, 3275163606, 4107603335, 1163531501, 2850285829, 4243563512,
   1735328473, 2368359562, 4294588738, 2272392833, 1839030562, 4259657740,
   2763975236, 1272893353, 4139469664, 3200236656, 681279174, 3936430074,
   3572445317, 76029189, 3654602809, 3873151461, 530742520, 3299628645,
   4096336452, 1126891415, 2878612391, 4237533241, 1700485571, 2399980690,
   4293915773, 2240044497, 1873313359, 4264355552, 2734768916, 1309151649,
   4149444226, 3174756917, 718787259, 3951481745]

/-- The per-round left-rotation amounts. -/
def md5S : List Nat :=
  [7, 12, 17, 22, 7, 12, 17, 22, 7, 12, 17, 22, 7, 12, 17, 22,
   5, 9, 14, 20, 5, 9, 14, 20, 5, 9, 14, 20, 5, 9, 14, 20,
   4, 11, 16, 23, 4, 11, 16, 23, 4, 11, 16, 23, 4, 11, 16, 23,
   6, 10, 15, 21, 6, 10, 15, 21, 6, 10, 15, 21, 6, 10, 15, 21]

/-- Left-rotate a 32-bit word (value below `2 ^ 32`). -/
def rotl32 (x n : Nat) : Nat :=
  ((x <<< n) % 4294967296) + (x >>> (32 - n))

/-- Round function and message-word index for MD5 round `i`. -/
def md5FG (i b c d : Nat) : Nat × Nat :=
  if i < 16 then ((b &&& c) ||| ((4294967295 ^^^ b) &&& d), i)
  else if i < 32 then ((d &&& b) ||| ((4294967295 ^^^ d) &&& c), (5 * i + 1) % 16)
  else if i < 48 then (b ^^^ c ^^^ d, (3 * i + 5) % 16)
  else (c ^^^ (b ||| (4294967295 ^^^ d)), (7 * i) % 16)

/-- One MD5 round on the state `(a, b, c, d)`. -/
def md5Step (M : List Nat) (st : Nat × Nat × Nat × Nat) (i : Nat) : Nat × Nat × Nat × Nat :=
  let (a, b, c, d) := st
  let fg := md5FG i b c d
  let f := (fg.1 + a + md5K.getD i 0 + M.getD fg.2 0) % 4294967296
  (d, (b + rotl32 f (md5S.getD i 0)) % 4294967296, b, c)

/-- Group a little-endian byte list into 32-bit words. -/
def toWords32 : List Nat → List Nat
  | b0 :: b1 :: b2 :: b3 :: rest =>
    (b0 + 256 * b1 + 65536 * b2 + 16777216 * b3) :: toWords32 rest
  | _ => []

/-- Process one 64-byte chunk. -/
def md5Chunk (st : Nat × Nat × Nat × Nat) (chunk : List Nat) : Nat × Nat × Nat × Nat :=
  let M := toWords32 chunk
  let r := (List.range 64).foldl (md5Step M) st
  ((st.1 + r.1) % 4294967296, (st.2.1 + r.2.1) % 4294967296,
   (st.2.2.1 + r.2.2.1) % 4294967296, (st.2.2.2 + r.2.2.2) % 4294967296)

/-- Split a byte list into 64-byte chunks; the fuel argument (any value at
least `l.length`) keeps the recursion structural and kernel-computable. -/
def chunks64F : Nat → List Nat → List (List Nat)
  | 0, _ => []
  | _ + 1, [] => []
  | fuel + 1, a :: t => (a :: t).take 64 :: chunks64F fuel ((a :: t).drop 64)

/-- Split a byte list into 64-byte chunks. -/
def chunks64 (l : List Nat) : List (List Nat) :=
  chunks64F l.length l

/-- Little-endian serialization of a 64-bit value. -/
def toLE8 (n : Nat) : List Nat :=
  [n % 256, n / 256 % 256, n / 65536 % 256, n / 16777216 % 256,
   n / 4294967296 % 256, n / 1099511627776 % 256,
   n / 281474976710656 % 256, n / 72057594037927936 % 256]

/-- Little-endian serialization of a 32-bit value. -/
def toLE4 (n : Nat) : List Nat :=
  [n % 256, n / 256 % 256, n / 65536 % 256, n / 16777216 % 256]

/-- MD5 padding: `0x80`, zeros to 56 mod 64, then the bit length little-endian. -/
def md5Pad (msg : List Nat) : List Nat :=
  msg ++ 128 :: List.replicate ((119 - msg.length % 64) % 64) 0 ++
    toLE8 ((msg.length * 8) % 18446744073709551616)

/-- The 16-byte MD5 digest of a byte list. -/
def md5Bytes (msg : List Nat) : List Nat :=
  let st := (chunks64 (md5Pad msg)).foldl md5Chunk (1732584193, 4023233417, 2562383102, 271733878)
  toLE4 st.1 ++ toLE4 st.2.1 ++ toLE4 st.2.2.1 ++ toLE4 st.2.2.2

/-- Lowercase hex digit. -/
def hexChar (d : Nat) : Char :=
  if d < 10 then Char.ofNat (48 + d) else Char.ofNat (87 + d)

/-- Two lowercase hex digits of a byte. -/
def byteHex (b : Nat) : List Char :=
  [hexChar (b / 16), hexChar (b % 16)]

/-- UTF-8 encoding of one code point. -/
def utf8Bytes (n : Nat) : List Nat :=
  if n < 128 then [n]
  else if n < 2048 then [192 + n / 64, 128 + n % 64]
  else if n < 65536 then [224 + n / 4096, 128 + n / 64 % 64, 128 + n % 64]
  else [240 + n / 262144, 128 + n / 4096 % 64, 128 + n / 64 % 64, 128 + n % 64]

/-- `s.encode()`: the UTF-8 bytes of a string. -/
def strBytes (s : String) : List Nat :=
  s.data.foldr (fun c acc => utf8Bytes c.toNat ++ acc) []

/-- `hashlib.md5(s.encode()).hexdigest()`. -/
def md5Hex (s : String) : String :=
  String.mk ((md5Bytes (strBytes s)).foldr (fun b acc => byteHex b ++ acc) [])

/-! ## Clock and ambient environment

`extract_session_from_request` reads `datetime.now()` (the server's local
clock) for its hour buckets and `int(datetime.now().timestamp())` plus
`uuid.uuid4().hex` for its last-resort id; `chat.py` elsewhere also reads
`datetime.utcnow()`.  One call's readings of these four ambient sources are
collected in an `Env`.  Only the calendar fields that `%Y%m%d_%H` consumes
are modelled. -/

structure DT where
  year : Nat
  month : Nat
  day : Nat
  hour : Nat
deriving DecidableEq

/-- Decimal digit character. -/
def digitChar10 (d : Nat) : Char :=
  Char.ofNat (48 + d)

/-- `%m`, `%d`, `%H`: zero-pad to two digits. -/
def pad2c (n : Nat) : List Char :=
  if n < 100 then [digitChar10 (n / 10), digitChar10 (n % 10)] else (toString n).data

/-- `%Y`: zero-pad to four digits. -/
def pad4c (n : Nat) : List Char :=
  if n < 10000 then
    [digitChar10 (n / 1000), digitChar10 (n / 100 % 10), digitChar10 (n / 10 % 10),
     digitChar10 (n % 10)]
  else (toString n).data

/-- `strftime('%Y%m%d_%H')`. -/
def fmtHour (t : DT) : String :=
  String.mk (pad4c t.year ++ pad2c t.month ++ pad2c t.day ++ '_' :: pad2c t.hour)

def isLeap (y : Nat) : Bool :=
  y % 4 == 0 && (y % 100 != 0 || y % 400 == 0)

def daysInMonth (y m : Nat) : Nat :=
  if m == 2 then (if isLeap y then 29 else 28)
  else if m == 4 || m == 6 || m == 9 || m == 11 then 30
  else 31

/-- The calendar time one hour after `t` (statement-side construct used to
express "a call one hour later"). -/
def addHour (t : DT) : DT :=
  if t.hour + 1 < 24 then ⟨t.year, t.month, t.day, t.hour + 1⟩
  else if t.day + 1 ≤ daysInMonth t.year t.month then ⟨t.year, t.month, t.day + 1, 0⟩
  else if t.month + 1 ≤ 12 then ⟨t.year, t.month + 1, 1, 0⟩
  else ⟨t.year + 1, 1, 1, 0⟩

/-- Calendar validity (year bound leaves room for the rollover case). -/
def validDT (t : DT) : Prop :=
  t.year < 9999 ∧ 1 ≤ t.month ∧ t.month ≤ 12 ∧ 1 ≤ t.day ∧ t.day ≤ 31 ∧ t.hour < 24

structure Env where
  localNow : DT
  utcNow : DT
  unixTimestamp : Nat
  uuidHex : String
deriving DecidableEq

/-! ## Dynamic values and the request model

A message's `content` (and `role`) can be any JSON value, so they are
modelled with the small dynamic type `PyVal` (string, integer, null — other
JSON shapes behave, for every operation the source applies, like one of
these).  The remaining body fields the resolver reads are modelled as
optional strings; a field that is absent, or present with a falsy value,
is `none` or `some ""`. -/

inductive PyVal where
  | pstr : String → PyVal
  | pint : Int → PyVal
  | pnone : PyVal
deriving DecidableEq

/-- Python truthiness of a `PyVal`. -/
def pyTruthy : PyVal → Bool
  | .pstr s => s != ""
  | .pint n => n != 0
  | .pnone => false

/-- Python `role == 'user'` (values of other types never equal a string). -/
def pyIsUserRole : PyVal → Bool
  | .pstr s => s == "user"
  | _ => false

/-- One entry of the `messages` list.  `isDict = false` models a non-dict
entry (skipped by the `isinstance(msg, dict)` check in the session
extractor); `role`/`content` model `msg.get('role', '')` / `msg.get('content', '')`. -/
structure PyMsg where
  isDict : Bool
  role : PyVal
  content : PyVal
deriving DecidableEq

/-- The request-body fields read by `extract_session_from_request` and
`chat_completions_with_streaming`. -/
structure RequestData where
  session_id : Option String := none
  sessionId : Option String := none
  conversation_id : Option String := none
  conversationId : Option String := none
  user_id : Option String := none
  userId : Option String := none
  user : Option String := none
  messages : Option (List PyMsg) := none
  model : Option String := none
deriving DecidableEq

/-- The Python exceptions the modelled fragment can raise. -/
inductive PyErr where
  | attributeError
  | typeError
deriving DecidableEq

deriving instance DecidableEq for Except

/-- Truthiness filter on an optional string field: `some s` survives only
when `s` is non-empty (mirrors `if field:` on a `.get(...)` result). -/
def truthyS : Option String → Option String
  | some s => if s == "" then none else some s
  | none => none

/-! ## The session resolver (chat.py lines 43-167) -/

/-- Method 2 session id: `sessionId or conversation_id or conversationId`. -/
def method2sid (req : RequestData) : Option String :=
  match truthyS req.sessionId with
  | some s => some s
  | none =>
    match truthyS req.conversation_id with
    | some s => some s
    | none => truthyS req.conversationId

/-- Method 2 user id: `userId or user_id or user or 'anonymous'`. -/
def method2uid (req : RequestData) : String :=
  match truthyS req.userId with
  | some u => u
  | none =>
    match truthyS req.user_id with
    | some u => u
    | none =>
      match truthyS req.user with
      | some u => u
      | none => "anonymous"

/-- `content[:200]`. -/
def take200 (s : String) : String :=
  strTake s 200

/-- The essence loop of Method 3: the first dict entry with role `'user'`
and truthy content either yields the essence (string content whose stripped
length exceeds 10), continues (string content, short), or raises
`AttributeError` (`.strip()` on a non-string). -/
def findEssence : List PyMsg → Except PyErr (Option String)
  | [] => .ok none
  | m :: rest =>
    if m.isDict && pyIsUserRole m.role && pyTruthy m.content then
      match m.content with
      | .pstr s =>
        if 10 < (pyStrip s).length then .ok (some (take200 s)) else findEssence rest
      | _ => .error .attributeError
    else findEssence rest

/-- Method 3: LibreChat conversation intelligence.  Fires when the body has
a truthy `messages` list and a truthy `user` field; derives the stable
`conv_` id from the essence, or the hour-bucketed `user_` id via
`datetime.now()` when no message qualifies. -/
def method3 (req : RequestData) (env : Env) :
    Option (Except PyErr (String × String × Bool)) :=
  match truthyS req.user with
  | some u =>
    if (req.messages.getD []).isEmpty then none
    else
      some (match findEssence (req.messages.getD []) with
        | .error e => .error e
        | .ok (some essence) =>
          .ok ("conv_" ++ u ++ "_" ++ strTake (md5Hex (u ++ "_" ++ essence)) 8, u, true)
        | .ok none =>
          .ok ("user_" ++ u ++ "_" ++ fmtHour env.localNow, u, true))
  | none => none

/-- The header loop of Method 4: first header whose lowercased name
contains "session" (while unset) supplies the session, else first whose
name contains "user" (while unset) supplies the user; falsy assigned values
count as unset. -/
def headerScanGo : List (String × String) → String → String → String × String
  | [], hs, hu => (hs, hu)
  | (n, v) :: rest, hs, hu =>
    let nl := pyLower n
    if strContains "session" nl && hs == "" then headerScanGo rest v hu
    else if strContains "user" nl && hu == "" then headerScanGo rest hs v
    else headerScanGo rest hs hu

/-- Method 4: header scan (runs only when a truthy headers dict is given). -/
def method4 (headers : Option (List (String × String))) (uid : String) :
    Option (String × String × Bool) :=
  match headers with
  | none => none
  | some hl =>
    if hl.isEmpty then none
    else if (headerScanGo hl "" "").1 == "" then none
    else some ((headerScanGo hl "" "").1,
      (if (headerScanGo hl "" "").2 == "" then uid else (headerScanGo hl "" "").2), true)

/-- Methods 5 and 6: the `flow_` smart-continuity id for a non-`'anonymous'`
`user` field, else the synthesized `auto_` id from
`int(datetime.now().timestamp())` and `uuid4().hex[:8]`. -/
def method56 (req : RequestData) (env : Env) : String × String × Bool :=
  let u := req.user.getD "anonymous"
  if u != "anonymous" then
    ("flow_" ++ u ++ "_" ++ fmtHour env.localNow, u, true)
  else
    ("auto_" ++ toString env.unixTimestamp ++ "_" ++ strTake env.uuidHex 8,
     if u != "anonymous" then u else "anonymous", true)

/-- `extract_session_from_request(request_data, headers)` (chat.py 43-167):
the prioritized six-strategy chain, returning
`(session_id, user_id, is_librechat_request)` or raising. -/
def extract_session_from_request (req : RequestData)
    (headers : Option (List (String × String))) (env : Env) :
    Except PyErr (String × String × Bool) :=
  match truthyS req.session_id with
  | some sid => .ok (sid, req.user_id.getD "anonymous", false)
  | none =>
    match method2sid req with
    | some sid => .ok (sid, method2uid req, true)
    | none =>
      match method3 req env with
      | some r => r
      | none =>
        match method4 headers (method2uid req) with
        | some t => .ok t
        | none => .ok (method56 req env)

/-! ## Intent classification (conversational_text_processing.py 24-45, 118-169) -/

inductive ConversationIntent where
  | definition
  | explanation
  | improvement
  | expansion
  | summarization
  | clarification
  | general
deriving DecidableEq

/-- Patterns of the DEFINITION group. -/
def definitionPatterns : List (List RTok) :=
  [wpat "what is", wpat "define", wpat "explain", wpat "mean",
   wpat "definition of", gapPat "what does" "mean"]

/-- Patterns of the IMPROVEMENT group. -/
def improvementPatterns : List (List RTok) :=
  [gapPat "how" "improve", gapPat "ways to" "better", wpat "enhance",
   wpat "optimize", wpat "better", wpat "upgrade"]

/-- Patterns of the EXPANSION group. -/
def expansionPatterns : List (List RTok) :=
  [wpat "expand on", wpat "more about", wpat "tell me more",
   wpat "elaborate", wpat "details", wpat "in depth"]

/-- Patterns of the EXPLANATION group. -/
def explanationPatterns : List (List RTok) :=
  [wpat "how does", wpat "why", wpat "how to", wpat "process",
   wpat "work", wpat "function", wpat "operate"]

/-- Patterns of the SUMMARIZATION group. -/
def summarizationPatterns : List (List RTok) :=
  [wpat "summarize", wpat "summary", wpat "overview",
   wpat "main points", gapPat "key" "points"]

/-- `self.intent_patterns`: the fixed intent table, in the dict's insertion
(and hence iteration) order. -/
def intent_patterns : List (ConversationIntent × List (List RTok)) :=
  [(.definition, definitionPatterns),
   (.improvement, improvementPatterns),
   (.expansion, expansionPatterns),
   (.explanation, explanationPatterns),
   (.summarization, summarizationPatterns)]

/-- The rule-based loop of `classify_intent`: first group (in table order)
with a pattern matching the lowercased text wins. -/
def ruleIntentGo (tl : String) :
    List (ConversationIntent × List (List RTok)) → Option ConversationIntent
  | [] => none
  | (i, pats) :: rest =>
    if pats.any (fun p => rsearch p tl) then some i else ruleIntentGo tl rest

/-- `intent_mapping` used to decode the LLM fallback's output. -/
def intent_mapping : List (String × ConversationIntent) :=
  [("definition", .definition), ("improvement", .improvement),
   ("expansion", .expansion), ("explanation", .explanation),
   ("summarization", .summarization), ("clarification", .clarification),
   ("general", .general)]

/-- The LLM fallback: strip and lowercase the model output and decode it,
defaulting to `general`; any exception also yields `general`. -/
def llmIntent : Except String String → ConversationIntent
  | .ok out => (List.lookup (pyLower (pyStrip out)) intent_mapping).getD .general
  | .error _ => .general

/-- `classify_intent(text)`.  The LLM call is an ambient effect, passed as
the `llm` argument; the returned flag records whether that fallback was
invoked (`false` on the rule-based fast path). -/
def classify_intent (text : String) (llm : Except String String) :
    ConversationIntent × Bool :=
  match ruleIntentGo (pyLower text) intent_patterns with
  | some i => (i, false)
  | none => (llmIntent llm, true)

/-! ## Topic-change detection (conversational_text_processing.py 228-255) -/

/-- The explicit topic-change indicator patterns. -/
def change_indicators : List (List RTok) :=
  [RTok.wordB :: lify "let" ++ RTok.lit (Char.ofNat 39) :: lify "s talk about" ++ [RTok.wordB],
   RTok.wordB :: lify "changing topic" ++ [RTok.opt 's', RTok.wordB],
   wpat "move on to",
   wpat "next topic",
   wpat "different question",
   wpat "another topic"]

/-- `detect_topic_change(current_message, previous_topic)`.  The source
compares `topic_matches / len(topic_words) < 0.3` in floating point; this is
modelled by the exact integer comparison `10 * matches < 3 * len`, which
coincides with the float comparison for every word count arising from real
topics (the two can only differ when the ratio is within double-precision
rounding of 3/10 without being exactly representable at that scale). -/
def detect_topic_change (current_message : String) (previous_topic : Option String) : Bool :=
  match previous_topic with
  | none => false
  | some prev =>
    if prev == "" then false
    else
      let currentLower := pyLower current_message
      let previousLower := pyLower prev
      if change_indicators.any (fun p => rsearch p currentLower) then true
      else
        let topicWords := pySplit previousLower
        let matchCount := (topicWords.filter (fun w => strContains w currentLower)).length
        decide (0 < topicWords.length) && decide (10 * matchCount < 3 * topicWords.length)

/-! ## The turn boundaries (chat.py 289-473, conversational_chat.py 47-83)

`chat_completions_with_streaming` is modelled on its non-streaming path:
the entire handler body sits in one `try`, whose external effects
(the generated response content) enter as an `Except`-valued argument, and
whose `except Exception` clause returns the fixed degraded completion dict.
Logging, the user-id auto-detection and the streaming generator do not
affect the modelled response fields. -/

structure CompletionResp where
  id : String
  object : String
  model : String
  role : String
  content : String
  finishReason : String
  promptTokens : Nat
  completionTokens : Nat
  totalTokens : Nat
  sessionId : Option String
  errorType : Option String
deriving DecidableEq

/-- The fixed error dict built by the handler's `except` clause
(chat.py 454-473). -/
def degraded_response (env : Env) : CompletionResp :=
  { id := "chatcmpl-error-" ++ toString env.unixTimestamp
    object := "chat.completion"
    model := "IntraNest-AI"
    role := "assistant"
    content := "I apologize, but I encountered an error processing your request. Please try again."
    finishReason := "stop"
    promptTokens := 1
    completionTokens := 25
    totalTokens := 26
    sessionId := none
    errorType := some "internal_error" }

/-- The user-message scan of chat.py 341-346: last message (iterating the
list reversed) with role `'user'` and truthy content.  A non-dict entry
raises on `.get`, and a non-string selected content raises downstream at the
usage computation (`user_message + response_content`). -/
def pickUserMessageGo : List PyMsg → Except PyErr String
  | [] => .ok "Hello"
  | m :: rest =>
    if !m.isDict then .error .attributeError
    else if pyIsUserRole m.role && pyTruthy m.content then
      match m.content with
      | .pstr s => .ok s
      | _ => .error .typeError
    else pickUserMessageGo rest

/-- Messages default to `[{'role': 'user', 'content': 'Hello'}]` when empty
(chat.py 338-339), then the reversed scan runs. -/
def pickUserMessage (msgs : List PyMsg) : Except PyErr String :=
  if msgs.isEmpty then .ok "Hello" else pickUserMessageGo msgs.reverse

/-- The `try`-block body of `chat_completions_with_streaming` (chat.py
299-447), non-streaming path: session extraction, user-message selection and
generation in sequence, any raise propagating as `.error`. -/
def chat_completions_work (req : RequestData) (headers : Option (List (String × String)))
    (env : Env) (genResult : Except PyErr String) : Except PyErr CompletionResp :=
  match extract_session_from_request req headers env with
  | .error e => .error e
  | .ok (sid, _, _) =>
    match pickUserMessage (req.messages.getD []) with
    | .error e => .error e
    | .ok userMessage =>
      match genResult with
      | .error e => .error e
      | .ok content =>
        .ok { id := "chatcmpl-" ++ toString env.unixTimestamp ++ "-" ++ strTake env.uuidHex 8
              object := "chat.completion"
              model := req.model.getD "IntraNest-AI"
              role := "assistant"
              content := content
              finishReason := "stop"
              promptTokens := max 1 (userMessage.length / 4)
              completionTokens := max 1 (content.length / 4)
              totalTokens := max 2 ((userMessage.length + content.length) / 4)
              sessionId := some sid
              errorType := none }

/-- `chat_completions_with_streaming` (chat.py 289-473), non-streaming path:
the whole handler body runs inside one `try`; any raise is caught by
`except Exception` and becomes the fixed `degraded_response`. -/
def chat_completions (req : RequestData) (headers : Option (List (String × String)))
    (env : Env) (genResult : Except PyErr String) : CompletionResp :=
  match chat_completions_work req headers env genResult with
  | .ok r => r
  | .error _ => degraded_response env

/-- The body fields of a `ConversationalChatRequest`. -/
structure ConvRequest where
  message : String
  session_id : Option String
  user_id : String
deriving DecidableEq

/-- The dict returned by `process_conversational_query`, as read by the
endpoint: its `type`, `response` and `error` entries. -/
structure ProcResult where
  rtype : String
  response : String
  error : String
deriving DecidableEq

/-- What the caller of the `conversational_chat` endpoint observes: a
success body, or an HTTP error response with a status and detail string. -/
inductive ConvOutcome where
  | success : String → String → ConvOutcome
  | httpError : Nat → String → ConvOutcome
deriving DecidableEq

/-- `str()` of a starlette `HTTPException`: `"<status>: <detail>"`. -/
def strHTTPExc (status : Nat) (detail : String) : String :=
  toString status ++ ": " ++ detail

/-- `conversational_chat` (conversational_chat.py 47-83).  The
`process_conversational_query` call is the `proc` argument (`.error` models
it raising).  `HTTPException`s raised inside the `try` are themselves caught
by `except Exception` and re-raised as `HTTPException(500, str(e))`. -/
def conversational_chat (req : ConvRequest) (uuid4str : String)
    (proc : Except String ProcResult) : ConvOutcome :=
  let sid := match truthyS req.session_id with | some s => s | none => uuid4str
  match proc with
  | .error e => .httpError 500 e
  | .ok r =>
    if r.rtype == "error" then .httpError 500 (strHTTPExc 500 r.error)
    else if r.rtype == "stream" then
      .httpError 500 (strHTTPExc 400 "Use /chat/conversational/stream for streaming responses")
    else .success r.response sid

/-! ## Statement-side definitions

These render the specification's vocabulary; the claim theorems relate them
to the source-translated functions above. -/

/-- Spec: `hash8`, "an 8-hex-character deterministic digest
(e.g., truncated MD5)". -/
def hash8 (x : String) : String :=
  strTake (md5Hex x) 8

/-- Spec: `m` is a qualifying essence message with content `s`: a dict
message of role `user` whose string content has trimmed length exceeding
10 characters. -/
def qualifying (m : PyMsg) (s : String) : Prop :=
  m.isDict = true ∧ m.role = .pstr "user" ∧ m.content = .pstr s ∧ 10 < (pyStrip s).length

/-- The essence loop passes over `m` without selecting it and without
raising: `m` is not a dict-user-truthy-content entry, or its content is a
string of trimmed length at most 10. -/
def skipsCleanly (m : PyMsg) : Bool :=
  if m.isDict && pyIsUserRole m.role && pyTruthy m.content then
    match m.content with
    | .pstr s => decide ((pyStrip s).length ≤ 10)
    | _ => false
  else true

/-- Message content is well-typed at the one place the essence loop calls
`.strip()`: entries that reach it carry string content. -/
def contentOk (m : PyMsg) : Bool :=
  if m.isDict && pyIsUserRole m.role && pyTruthy m.content then
    match m.content with
    | .pstr _ => true
    | _ => false
  else true

/-- All message contents are well-typed for the essence loop. -/
def contentsOk (req : RequestData) : Bool :=
  (req.messages.getD []).all contentOk

/-- No truthy session key in the body: methods 1 and 2 both skip. -/
def noBodySession (req : RequestData) : Prop :=
  truthyS req.session_id = none ∧ method2sid req = none

/-- No header whose lowercased name contains "session". -/
def noSessionHeader : Option (List (String × String)) → Prop
  | none => True
  | some l => ∀ p ∈ l, strContains "session" (pyLower p.1) = false

instance (m : PyMsg) (s : String) : Decidable (qualifying m s) := by
  unfold qualifying
  infer_instance

instance (req : RequestData) : Decidable (noBodySession req) := by
  unfold noBodySession
  infer_instance

instance (h : Option (List (String × String))) : Decidable (noSessionHeader h) := by
  cases h <;> unfold noSessionHeader <;> infer_instance

instance (t : DT) : Decidable (validDT t) := by
  unfold validDT
  infer_instance

/-- Spec-side topic-change predicate (§4.3 of the spec): the current text
contains an explicit topic-change phrase, or fewer than 30% of the previous
topic's words recur in the current text. -/
def specTopicChange (cur prev : String) : Prop :=
  (∃ p ∈ change_indicators, rsearch p (pyLower cur) = true) ∨
    10 * ((pySplit (pyLower prev)).filter (fun w => strContains w (pyLower cur))).length <
      3 * (pySplit (pyLower prev)).length

/-- Lowercase hex digit check (the alphabet of `uuid4().hex`). -/
def isHexDigitChar (c : Char) : Bool :=
  (48 ≤ c.toNat && c.toNat ≤ 57) || (97 ≤ c.toNat && c.toNat ≤ 102)

/-- The `uuid4().hex` contract: 32 lowercase hex characters. -/
def uuidHexOk (u : String) : Prop :=
  u.length = 32 ∧ u.data.all isHexDigitChar = true

/-! ## Concrete instances used by witnesses and counterexamples -/

/-- A sample environment: server-local clock at 2025-06-01 12h on a UTC+7
host (UTC clock at 05h), with fixed timestamp and uuid readings. -/
def sampleEnv : Env :=
  ⟨⟨2025, 6, 1, 12⟩, ⟨2025, 6, 1, 5⟩, 1748750400, "0123456789abcdef0123456789abcdef"⟩

/-- A second sample environment with the same local hour but different
uuid, timestamp and UTC readings. -/
def sampleEnvB : Env :=
  ⟨⟨2025, 6, 1, 12⟩, ⟨2025, 6, 1, 19⟩, 1748751111, "feedfacefeedfacefeedfacefeedface"⟩

/-- A sample environment whose local clock reads one hour after `sampleEnv`'s. -/
def sampleEnvNextHour : Env :=
  ⟨⟨2025, 6, 1, 13⟩, ⟨2025, 6, 1, 6⟩, 1748754000, "0123456789abcdef0123456789abcdef"⟩

/-- A qualifying user message (stripped length 31 > 10). -/
def essenceMsg : PyMsg :=
  ⟨true, .pstr "user", .pstr "What is quantum computing today"⟩

/-- A short user message (stripped length 2, skipped by the essence loop). -/
def shortMsg : PyMsg :=
  ⟨true, .pstr "user", .pstr "hi"⟩

/-- An assistant message (skipped by the essence loop). -/
def asstMsg : PyMsg :=
  ⟨true, .pstr "assistant", .pstr "Certainly, here is an answer."⟩

/-- A user message whose content is the integer 5: truthy but not a string,
so the essence loop's `.strip()` raises `AttributeError` on it. -/
def badMsg : PyMsg :=
  ⟨true, .pstr "user", .pint 5⟩

/-! ## General lemmas -/

theorem str_data_inj {s t : String} (h : s.data = t.data) : s = t := by
  cases s; cases t; exact congrArg String.mk h

theorem str_append_data (s t : String) : (s ++ t).data = s.data ++ t.data := by
  cases s; cases t; rfl

theorem append_right_ne (p a b : String) (h : a ≠ b) : p ++ a ≠ p ++ b := by
  intro he
  apply h
  apply str_data_inj
  have hd := congrArg String.data he
  rw [str_append_data, str_append_data] at hd
  exact List.append_cancel_left hd

theorem ne_empty_append_left (p x : String) (h : p ≠ "") : p ++ x ≠ "" := by
  intro he
  apply h
  have hd := congrArg String.data he
  rw [str_append_data] at hd
  exact str_data_inj (List.append_eq_nil.mp hd).1

theorem truthyS_some_ne {o : Option String} {s : String} (h : truthyS o = some s) : s ≠ "" := by
  cases o with
  | none => simp [truthyS] at h
  | some t =>
    by_cases ht : t = ""
    · subst ht; simp [truthyS] at h
    · simp [truthyS, ht] at h
      subst h; exact ht

theorem truthyS_of_ne {s : String} (h : s ≠ "") : truthyS (some s) = some s := by
  simp [truthyS, h]

theorem pyStrip_length_le (s : String) : (pyStrip s).length ≤ s.length := by
  have hdw : ∀ (p : Char → Bool) (l : List Char), (l.dropWhile p).length ≤ l.length := by
    intro p l
    induction l with
    | nil => simp
    | cons a t ih => by_cases h : p a <;> simp [List.dropWhile, h] <;> omega
  have h1 : (stripChars s.data).length ≤ s.data.length := by
    simp only [stripChars, List.length_reverse]
    calc ((s.data.dropWhile isPySpace).reverse.dropWhile isPySpace).length
        ≤ (s.data.dropWhile isPySpace).reverse.length := hdw ..
      _ = (s.data.dropWhile isPySpace).length := by simp
      _ ≤ s.data.length := hdw ..
  exact h1

theorem qualifying_ne_empty {m : PyMsg} {s : String} (h : qualifying m s) : s ≠ "" := by
  obtain ⟨-, -, -, hlen⟩ := h
  intro he
  subst he
  have h0 : (pyStrip "").length ≤ 0 := by simpa using pyStrip_length_le ""
  omega

/-! ## Lemmas about the essence loop -/

theorem findEssence_cons (m : PyMsg) (rest : List PyMsg) :
    findEssence (m :: rest) =
      if (m.isDict && pyIsUserRole m.role && pyTruthy m.content) = true then
        match m.content with
        | .pstr s =>
          if 10 < (pyStrip s).length then .ok (some (take200 s)) else findEssence rest
        | _ => .error .attributeError
      else findEssence rest := by
  rfl

theorem findEssence_skip {m : PyMsg} (rest : List PyMsg) (h : skipsCleanly m = true) :
    findEssence (m :: rest) = findEssence rest := by
  rw [findEssence_cons]
  by_cases hg : (m.isDict && pyIsUserRole m.role && pyTruthy m.content) = true
  · rw [if_pos hg]
    unfold skipsCleanly at h
    rw [if_pos hg] at h
    cases hc : m.content with
    | pstr s =>
      rw [hc] at h
      simp only [decide_eq_true_eq] at h
      show (if 10 < (pyStrip s).length then Except.ok (some (take200 s)) else findEssence rest) =
        findEssence rest
      rw [if_neg (by omega)]
    | pint n => rw [hc] at h; simp at h
    | pnone => rw [hc] at h; simp at h
  · rw [if_neg hg]

theorem findEssence_all_skip (l : List PyMsg) (h : ∀ m ∈ l, skipsCleanly m = true) :
    findEssence l = .ok none := by
  induction l with
  | nil => rfl
  | cons a t ih =>
    rw [findEssence_skip t (h a (by simp))]
    exact ih fun m hm => h m (by simp [hm])

theorem findEssence_first (pre : List PyMsg) (m : PyMsg) (rest : List PyMsg) (s : String)
    (hpre : ∀ x ∈ pre, skipsCleanly x = true) (hq : qualifying m s) :
    findEssence (pre ++ m :: rest) = .ok (some (take200 s)) := by
  induction pre with
  | nil =>
    have hne := qualifying_ne_empty hq
    obtain ⟨hd, hr, hc, hlen⟩ := hq
    simp only [List.nil_append]
    rw [findEssence_cons]
    have hg : (m.isDict && pyIsUserRole m.role && pyTruthy m.content) = true := by
      rw [hd, hr, hc]
      simp [pyIsUserRole, pyTruthy, hne]
    rw [if_pos hg, hc]
    show (if 10 < (pyStrip s).length then Except.ok (some (take200 s)) else
      findEssence rest) = Except.ok (some (take200 s))
    rw [if_pos hlen]
  | cons a t ih =>
    simp only [List.cons_append]
    rw [findEssence_skip _ (hpre a (by simp))]
    exact ih fun x hx => hpre x (by simp [hx])

theorem findEssence_total (l : List PyMsg) (h : ∀ m ∈ l, contentOk m = true) :
    ∃ o, findEssence l = .ok o := by
  induction l with
  | nil => exact ⟨none, rfl⟩
  | cons a t ih =>
    have ha := h a (by simp)
    have ht : ∃ o, findEssence t = .ok o := ih fun x hx => h x (by simp [hx])
    rw [findEssence_cons]
    by_cases hg : (a.isDict && pyIsUserRole a.role && pyTruthy a.content) = true
    · rw [if_pos hg]
      unfold contentOk at ha
      rw [if_pos hg] at ha
      cases hc : a.content with
      | pstr s =>
        by_cases hl : 10 < (pyStrip s).length
        · exact ⟨some (take200 s), by
            show (if 10 < (pyStrip s).length then Except.ok (some (take200 s)) else
              findEssence t) = Except.ok (some (take200 s))
            rw [if_pos hl]⟩
        · obtain ⟨o, ho⟩ := ht
          exact ⟨o, by
            show (if 10 < (pyStrip s).length then Except.ok (some (take200 s)) else
              findEssence t) = Except.ok o
            rw [if_neg hl]; exact ho⟩
      | pint n => rw [hc] at ha; simp at ha
      | pnone => rw [hc] at ha; simp at ha
    · rw [if_neg hg]
      exact ht

/-! ## Lemmas about the resolver's strategy chain -/

theorem method2sid_some_ne {req : RequestData} {s : String}
    (h : method2sid req = some s) : s ≠ "" := by
  unfold method2sid at h
  cases h1 : truthyS req.sessionId with
  | some x =>
    rw [h1] at h
    cases h
    exact truthyS_some_ne h1
  | none =>
    rw [h1] at h
    cases h2 : truthyS req.conversation_id with
    | some x =>
      rw [h2] at h
      cases h
      exact truthyS_some_ne h2
    | none =>
      rw [h2] at h
      exact truthyS_some_ne h

theorem method3_essence (req : RequestData) (env : Env) (u : String)
    (pre : List PyMsg) (m : PyMsg) (rest : List PyMsg) (s : String)
    (hu : req.user = some u) (hune : u ≠ "")
    (hm : req.messages = some (pre ++ m :: rest))
    (hpre : ∀ x ∈ pre, skipsCleanly x = true) (hq : qualifying m s) :
    method3 req env =
      some (.ok ("conv_" ++ u ++ "_" ++ hash8 (u ++ "_" ++ take200 s), u, true)) := by
  have hne : (pre ++ m :: rest).isEmpty = false := by cases pre <;> rfl
  unfold method3
  rw [hm, hu, truthyS_of_ne hune]
  simp only [Option.getD_some]
  rw [if_neg (by simp [hne])]
  rw [findEssence_first pre m rest s hpre hq]
  rfl

theorem method3_fallback (req : RequestData) (env : Env) (u : String) (msgs : List PyMsg)
    (hu : req.user = some u) (hune : u ≠ "")
    (hm : req.messages = some msgs) (hne : msgs ≠ [])
    (hskip : ∀ x ∈ msgs, skipsCleanly x = true) :
    method3 req env = some (.ok ("user_" ++ u ++ "_" ++ fmtHour env.localNow, u, true)) := by
  unfold method3
  rw [hm, hu, truthyS_of_ne hune]
  simp only [Option.getD_some]
  rw [if_neg (by simp [hne])]
  rw [findEssence_all_skip msgs hskip]

theorem method3_none_of_no_messages (req : RequestData) (env : Env)
    (hm : req.messages.getD [] = []) : method3 req env = none := by
  unfold method3
  rw [hm]
  cases truthyS req.user <;> simp

theorem method3_none_of_no_user (req : RequestData) (env : Env)
    (hu : truthyS req.user = none) : method3 req env = none := by
  unfold method3
  rw [hu]

theorem headerScanGo_fst_empty (l : List (String × String)) (hu : String)
    (h : ∀ p ∈ l, strContains "session" (pyLower p.1) = false) :
    (headerScanGo l "" hu).1 = "" := by
  induction l generalizing hu with
  | nil => rfl
  | cons a t ih =>
    obtain ⟨n, v⟩ := a
    have hn : strContains "session" (pyLower n) = false := h (n, v) (by simp)
    unfold headerScanGo
    simp only
    rw [if_neg (by simp [hn])]
    by_cases hu2 : (strContains "user" (pyLower n) && (hu == "")) = true
    · rw [if_pos hu2]
      exact ih _ fun p hp => h p (by simp [hp])
    · rw [if_neg hu2]
      exact ih _ fun p hp => h p (by simp [hp])

theorem method4_some_eq (l : List (String × String)) (uid : String) :
    method4 (some l) uid =
      (if l.isEmpty then none
       else if (headerScanGo l "" "").1 == "" then none
       else some ((headerScanGo l "" "").1,
         (if (headerScanGo l "" "").2 == "" then uid else (headerScanGo l "" "").2), true)) := by
  rfl

theorem method4_none (headers : Option (List (String × String))) (uid : String)
    (h : noSessionHeader headers) : method4 headers uid = none := by
  cases headers with
  | none => rfl
  | some l =>
    rw [method4_some_eq]
    by_cases he : l.isEmpty = true
    · rw [if_pos he]
    · rw [if_neg he]
      have hfst := headerScanGo_fst_empty l "" h
      rw [if_pos (by simp [hfst])]

theorem method4_some_ne {headers : Option (List (String × String))} {uid : String}
    {t : String × String × Bool} (h : method4 headers uid = some t) : t.1 ≠ "" := by
  cases headers with
  | none => simp [method4] at h
  | some l =>
    rw [method4_some_eq] at h
    by_cases he : l.isEmpty = true
    · rw [if_pos he] at h; cases h
    · rw [if_neg he] at h
      by_cases hp : ((headerScanGo l "" "").1 == "") = true
      · rw [if_pos hp] at h; cases h
      · rw [if_neg hp] at h
        cases h
        simpa using hp

theorem extract_eq (req : RequestData) (headers : Option (List (String × String))) (env : Env) :
    extract_session_from_request req headers env =
      (match truthyS req.session_id with
       | some sid => .ok (sid, req.user_id.getD "anonymous", false)
       | none =>
         match method2sid req with
         | some sid => .ok (sid, method2uid req, true)
         | none =>
           match method3 req env with
           | some r => r
           | none =>
             match method4 headers (method2uid req) with
             | some t => .ok t
             | none => .ok (method56 req env)) := by
  rfl

theorem extract_essence (req : RequestData) (headers : Option (List (String × String)))
    (env : Env) (u : String) (pre : List PyMsg) (m : PyMsg) (rest : List PyMsg) (s : String)
    (hnb : noBodySession req) (hu : req.user = some u) (hune : u ≠ "")
    (hm : req.messages = some (pre ++ m :: rest))
    (hpre : ∀ x ∈ pre, skipsCleanly x = true) (hq : qualifying m s) :
    extract_session_from_request req headers env =
      .ok ("conv_" ++ u ++ "_" ++ hash8 (u ++ "_" ++ take200 s), u, true) := by
  obtain ⟨h1, h2⟩ := hnb
  rw [extract_eq, h1, h2, method3_essence req env u pre m rest s hu hune hm hpre hq]

theorem extract_user_fallback (req : RequestData) (headers : Option (List (String × String)))
    (env : Env) (u : String) (msgs : List PyMsg)
    (hnb : noBodySession req) (hu : req.user = some u) (hune : u ≠ "")
    (hm : req.messages = some msgs) (hne : msgs ≠ [])
    (hskip : ∀ x ∈ msgs, skipsCleanly x = true) :
    extract_session_from_request req headers env =
      .ok ("user_" ++ u ++ "_" ++ fmtHour env.localNow, u, true) := by
  obtain ⟨h1, h2⟩ := hnb
  rw [extract_eq, h1, h2, method3_fallback req env u msgs hu hune hm hne hskip]

theorem extract_flow (req : RequestData) (headers : Option (List (String × String)))
    (env : Env) (u : String)
    (hnb : noBodySession req) (hh : noSessionHeader headers)
    (hmsg : req.messages.getD [] = []) (hu : req.user = some u) (hua : u ≠ "anonymous") :
    extract_session_from_request req headers env =
      .ok ("flow_" ++ u ++ "_" ++ fmtHour env.localNow, u, true) := by
  obtain ⟨h1, h2⟩ := hnb
  rw [extract_eq, h1, h2, method3_none_of_no_messages req env hmsg,
    method4_none headers (method2uid req) hh]
  unfold method56
  rw [hu]
  simp only [Option.getD_some]
  rw [if_pos (by simp [hua])]

theorem extract_auto (req : RequestData) (headers : Option (List (String × String))) (env : Env)
    (hnb : noBodySession req) (hh : noSessionHeader headers)
    (hus : req.user = none ∨ req.user = some "anonymous")
    (hmu : req.messages.getD [] = [] ∨ req.user = none) :
    extract_session_from_request req headers env =
      .ok ("auto_" ++ toString env.unixTimestamp ++ "_" ++ strTake env.uuidHex 8,
        "anonymous", true) := by
  obtain ⟨h1, h2⟩ := hnb
  have hm3 : method3 req env = none := by
    rcases hus with hu | hu
    · exact method3_none_of_no_user req env (by rw [hu]; rfl)
    · rcases hmu with hm | hm
      · exact method3_none_of_no_messages req env hm
      · rw [hu] at hm; cases hm
  rw [extract_eq, h1, h2, hm3, method4_none headers (method2uid req) hh]
  unfold method56
  have hgd : req.user.getD "anonymous" = "anonymous" := by
    rcases hus with hu | hu <;> rw [hu] <;> rfl
  rw [hgd]
  simp

/-! ## Lemmas about the hour-bucket format -/

theorem pad2c_length {n : Nat} (h : n < 100) : (pad2c n).length = 2 := by
  rw [pad2c, if_pos h]
  rfl

theorem pad4c_length {n : Nat} (h : n < 10000) : (pad4c n).length = 4 := by
  rw [pad4c, if_pos h]
  rfl

theorem pad2c_inj_lt24 : ∀ a, a < 24 → ∀ b, b < 24 → pad2c a = pad2c b → a = b := by
  decide

theorem daysInMonth_le (y m : Nat) : daysInMonth y m ≤ 31 := by
  unfold daysInMonth
  split
  · split <;> omega
  · split <;> omega

theorem fmtHour_addHour_ne (t : DT) (hv : validDT t) : fmtHour (addHour t) ≠ fmtHour t := by
  obtain ⟨hy, hm1, hm2, hd1, hd2, hh⟩ := hv
  by_cases hcase : t.hour + 1 < 24
  · -- same date, hour increments
    have eq1 : addHour t = ⟨t.year, t.month, t.day, t.hour + 1⟩ := by
      unfold addHour
      rw [if_pos hcase]
    intro heq
    rw [eq1] at heq
    have hl : (pad4c t.year ++ pad2c t.month ++ pad2c t.day ++ '_' :: pad2c (t.hour + 1) :
        List Char) = pad4c t.year ++ pad2c t.month ++ pad2c t.day ++ '_' :: pad2c t.hour :=
      congrArg String.data heq
    have h2 : ('_' :: pad2c (t.hour + 1) : List Char) = '_' :: pad2c t.hour :=
      List.append_cancel_left hl
    have h3 : pad2c (t.hour + 1) = pad2c t.hour := by
      injection h2
    have := pad2c_inj_lt24 (t.hour + 1) hcase t.hour (by omega) h3
    omega
  · -- hour 23 rolls over: the hour block changes from "23" to "00"
    have h23 : t.hour = 23 := by omega
    have hbounds : (addHour t).year < 10000 ∧ (addHour t).month < 100 ∧
        (addHour t).day < 100 ∧ (addHour t).hour = 0 := by
      have hdm := daysInMonth_le t.year t.month
      unfold addHour
      rw [if_neg hcase]
      split
      · refine ⟨?_, ?_, ?_, rfl⟩ <;> simp <;> omega
      · split
        · refine ⟨?_, ?_, ?_, rfl⟩ <;> simp <;> omega
        · refine ⟨?_, ?_, ?_, rfl⟩ <;> simp <;> omega
    obtain ⟨hy', hm', hd', hh'⟩ := hbounds
    intro heq
    have hl : (pad4c (addHour t).year ++ pad2c (addHour t).month ++ pad2c (addHour t).day ++
        '_' :: pad2c (addHour t).hour : List Char) =
        pad4c t.year ++ pad2c t.month ++ pad2c t.day ++ '_' :: pad2c t.hour :=
      congrArg String.data heq
    have hlen : ((pad4c (addHour t).year ++ pad2c (addHour t).month) ++
        pad2c (addHour t).day).length =
        ((pad4c t.year ++ pad2c t.month) ++ pad2c t.day).length := by
      simp only [List.length_append]
      rw [pad4c_length hy', pad2c_length hm', pad2c_length hd',
        pad4c_length (by omega), pad2c_length (by omega), pad2c_length (by omega)]
    have h2 := List.append_inj_right hl hlen
    rw [hh', h23] at h2
    have h3 : pad2c 0 = pad2c 23 := by injection h2
    exact absurd h3 (by decide)

/-! ## Lemmas about the turn boundaries -/

theorem chat_completions_work_ok {req : RequestData}
    {headers : Option (List (String × String))} {env : Env} {gen : Except PyErr String}
    {r : CompletionResp} (h : chat_completions_work req headers env gen = .ok r) :
    r.role = "assistant" ∧ r.object = "chat.completion" ∧ r.finishReason = "stop" := by
  unfold chat_completions_work at h
  cases hx : extract_session_from_request req headers env with
  | error e => rw [hx] at h; cases h
  | ok t =>
    obtain ⟨sid, uid, inf⟩ := t
    rw [hx] at h
    cases hp : pickUserMessage (req.messages.getD []) with
    | error e => rw [hp] at h; cases h
    | ok um =>
      rw [hp] at h
      cases gen with
      | error e => cases h
      | ok content => cases h; exact ⟨rfl, rfl, rfl⟩

theorem chat_completions_work_gen_error (req : RequestData)
    (headers : Option (List (String × String))) (env : Env) (e : PyErr) :
    ∃ e2, chat_completions_work req headers env (.error e) = .error e2 := by
  unfold chat_completions_work
  cases extract_session_from_request req headers env with
  | error e3 => exact ⟨e3, rfl⟩
  | ok t =>
    obtain ⟨sid, uid, inf⟩ := t
    cases pickUserMessage (req.messages.getD []) with
    | error e3 => exact ⟨e3, rfl⟩
    | ok um => exact ⟨e, rfl⟩

/-! ## Lemmas about intent classification and topic change -/

theorem ruleIntentGo_first (tl : String) (pre : List (ConversationIntent × List (List RTok)))
    (i : ConversationIntent) (pats : List (List RTok))
    (rest : List (ConversationIntent × List (List RTok)))
    (hpre : ∀ g ∈ pre, g.2.any (fun p => rsearch p tl) = false)
    (hm : pats.any (fun p => rsearch p tl) = true) :
    ruleIntentGo tl (pre ++ (i, pats) :: rest) = some i := by
  induction pre with
  | nil =>
    simp only [List.nil_append]
    unfold ruleIntentGo
    rw [if_pos hm]
  | cons a t ih =>
    obtain ⟨ai, apats⟩ := a
    have ha : apats.any (fun p => rsearch p tl) = false := hpre (ai, apats) (by simp)
    simp only [List.cons_append]
    unfold ruleIntentGo
    rw [if_neg (by simp [ha])]
    exact ih fun g hg => hpre g (by simp [hg])

theorem detect_topic_change_some (cur t : String) :
    detect_topic_change cur (some t) =
      (if t == "" then false
       else if change_indicators.any (fun p => rsearch p (pyLower cur)) then true
       else
         decide (0 < (pySplit (pyLower t)).length) &&
           decide (10 * ((pySplit (pyLower t)).filter
             (fun w => strContains w (pyLower cur))).length <
             3 * (pySplit (pyLower t)).length)) := by
  rfl

/-! ## Claim theorems -/

/-- C10: for every current message, `detect_topic_change(current_message, None)`
returns false — when no previous topic exists a topic change is never
signalled, regardless of the message content. -/
theorem topic_change_false_without_previous (cur : String) :
    detect_topic_change cur none = false := by
  rfl

/-- C7: for every current text and every non-null, non-empty previous topic,
`detect_topic_change` returns true if and only if the current text contains
one of the explicit topic-change phrases or fewer than 30% of the previous
topic's words recur in the current text. -/
theorem topic_change_iff_spec (cur t : String) (ht : t ≠ "") :
    detect_topic_change cur (some t) = true ↔ specTopicChange cur t := by
  rw [detect_topic_change_some]
  rw [if_neg (by simp [ht])]
  unfold specTopicChange
  by_cases hind : change_indicators.any (fun p => rsearch p (pyLower cur)) = true
  · rw [if_pos hind]
    simp only [List.any_eq_true] at hind
    constructor
    · intro _
      exact Or.inl hind
    · intro _
      rfl
  · rw [if_neg hind]
    have hno : ¬∃ p ∈ change_indicators, rsearch p (pyLower cur) = true := by
      simpa [List.any_eq_true] using hind
    constructor
    · intro hb
      simp only [Bool.and_eq_true, decide_eq_true_eq] at hb
      exact Or.inr hb.2
    · intro hs
      rcases hs with hph | hlt
      · exact absurd hph hno
      · simp only [Bool.and_eq_true, decide_eq_true_eq]
        exact ⟨by omega, hlt⟩

/-- Witness for C7 at a concrete topic and message: the previous topic
"quantum computing" has no word recurring in the current message, so a
topic change is detected, matching the specification predicate. -/
theorem topic_change_iff_spec_witness :
    ("quantum computing" : String) ≠ "" ∧
      (detect_topic_change "please summarize the meeting notes" (some "quantum computing") = true ↔
        specTopicChange "please summarize the meeting notes" "quantum computing") :=
  ⟨by decide, topic_change_iff_spec "please summarize the meeting notes" "quantum computing"
    (by decide)⟩

/-- C6 (amended): for every text matching at least one pattern in the fixed
ordered intent table, `classify_intent` returns the intent of the first
group in table order containing a matching pattern, without invoking the
LLM fallback; in particular a text matching the word-bounded pattern
`\bwhat is\b` (after lowercasing) is classified as `definition` with no LLM
call. -/
theorem classify_intent_first_group_wins :
    (∀ (text : String) (llm : Except String String)
       (pre : List (ConversationIntent × List (List RTok))) (i : ConversationIntent)
       (pats : List (List RTok)) (rest : List (ConversationIntent × List (List RTok))),
       intent_patterns = pre ++ (i, pats) :: rest →
       (∀ g ∈ pre, g.2.any (fun p => rsearch p (pyLower text)) = false) →
       pats.any (fun p => rsearch p (pyLower text)) = true →
       classify_intent text llm = (i, false)) ∧
    (∀ (text : String) (llm : Except String String),
       rsearch (wpat "what is") (pyLower text) = true →
       classify_intent text llm = (.definition, false)) := by
  constructor
  · intro text llm pre i pats rest htable hpre hm
    unfold classify_intent
    rw [htable, ruleIntentGo_first (pyLower text) pre i pats rest hpre hm]
  · intro text llm hsearch
    unfold classify_intent
    have hrule : ruleIntentGo (pyLower text) intent_patterns = some ConversationIntent.definition := by
      have hany : definitionPatterns.any (fun p => rsearch p (pyLower text)) = true := by
        unfold definitionPatterns
        simp [hsearch]
      exact ruleIntentGo_first (pyLower text) [] .definition definitionPatterns
        [(.improvement, improvementPatterns), (.expansion, expansionPatterns),
         (.explanation, explanationPatterns), (.summarization, summarizationPatterns)]
        (by simp) hany
    rw [hrule]

/-- Witness for C6 at the concrete message "what is tcs": the rule table
classifies it as `definition` and the LLM fallback flag stays false even
when the LLM is failing. -/
theorem classify_intent_first_group_wins_witness :
    rsearch (wpat "what is") (pyLower "what is tcs") = true ∧
      classify_intent "what is tcs" (.error "llm unavailable") = (.definition, false) :=
  ⟨by decide, classify_intent_first_group_wins.2 "what is tcs" (.error "llm unavailable")
    (by decide)⟩

/-- Counterexample to C6 as stated: "somewhat is fine" contains the
substring "what is" but matches no table pattern (the regexes are
word-bounded), so `classify_intent` does invoke the LLM fallback — here the
fallback fails and the result is `general`, not `definition`. -/
theorem classify_intent_contains_counterexample :
    strContains "what is" "somewhat is fine" = true ∧
      classify_intent "somewhat is fine" (.error "llm unavailable") = (.general, true) := by
  exact ⟨by decide, by decide⟩

/-- C2 (amended): for every request body whose explicit `session_id` field
holds a non-empty value, the resolver returns exactly that value with
`is_inferred = false`, regardless of any `messages`/`user` essence also
present — strategy 1 strictly precedes strategy 3 and strategies are never
blended. -/
theorem explicit_session_id_wins (req : RequestData)
    (headers : Option (List (String × String))) (env : Env) (s : String)
    (hs : req.session_id = some s) (hne : s ≠ "") :
    extract_session_from_request req headers env =
      .ok (s, req.user_id.getD "anonymous", false) := by
  rw [extract_eq, hs, truthyS_of_ne hne]

/-- Witness for C2: a body carrying both `session_id = "sess-42"` and a
messages-based essence resolves to the explicit id, not the derived one. -/
theorem explicit_session_id_wins_witness :
    ({ session_id := some "sess-42", user := some "alice",
       messages := some [essenceMsg] } : RequestData).session_id = some "sess-42" ∧
      ("sess-42" : String) ≠ "" ∧
      extract_session_from_request
        { session_id := some "sess-42", user := some "alice", messages := some [essenceMsg] }
        none sampleEnv = .ok ("sess-42", "anonymous", false) :=
  ⟨rfl, by decide,
    explicit_session_id_wins _ none sampleEnv "sess-42" rfl (by decide)⟩

/-- Counterexample to C2 as stated: a body that contains the explicit
`session_id` field with the (falsy) value `""` together with a
messages-based essence does not resolve to the explicit value with
`is_inferred = false`; the empty string fails the truthiness test of
strategy 1 and strategy 3 derives `conv_alice_4ce61738` instead. -/
theorem explicit_session_id_empty_counterexample :
    ({ session_id := some "", user := some "alice",
       messages := some [essenceMsg] } : RequestData).session_id = some "" ∧
      extract_session_from_request
        { session_id := some "", user := some "alice", messages := some [essenceMsg] }
        none sampleEnv = .ok ("conv_alice_4ce61738", "alice", true) ∧
      ("conv_alice_4ce61738" : String) ≠ "" := by
  exact ⟨rfl, by decide, by decide⟩

/-- C5 (amended): the chat completions handler (chat.py) returns a
well-formed assistant completion for every request, and under any internal
or backend failure returns the fixed degraded response; the
`conversational_chat` endpoint (conversational_chat.py) instead maps an
internal failure to an HTTP 500 error response carrying the internal error
string. -/
theorem turn_boundary_degradation :
    (∀ (req : RequestData) (headers : Option (List (String × String))) (env : Env)
       (gen : Except PyErr String),
       (chat_completions req headers env gen).role = "assistant" ∧
       (chat_completions req headers env gen).object = "chat.completion" ∧
       (chat_completions req headers env gen).finishReason = "stop") ∧
    (∀ (req : RequestData) (headers : Option (List (String × String))) (env : Env) (e : PyErr),
       chat_completions req headers env (.error e) = degraded_response env) ∧
    (∀ (req : ConvRequest) (uuid4str : String) (e : String),
       conversational_chat req uuid4str (.error e) = .httpError 500 e) := by
  refine ⟨?_, ?_, ?_⟩
  · intro req headers env gen
    unfold chat_completions
    cases hw : chat_completions_work req headers env gen with
    | error e => exact ⟨rfl, rfl, rfl⟩
    | ok r => exact chat_completions_work_ok hw
  · intro req headers env e
    obtain ⟨e2, he2⟩ := chat_completions_work_gen_error req headers env e
    unfold chat_completions
    rw [he2]
  · intro req uuid4str e
    rfl

/-- Counterexample to C5 as stated: with the backend raising
"Weaviate connection refused", the `conversational_chat` boundary (cited by
the claim) does not return a degraded assistant message — it surfaces an
HTTP 500 whose detail is the raw internal error string. -/
theorem conversational_chat_propagates_counterexample :
    conversational_chat ⟨"What is TCS", none, "alice"⟩
        "3fa85f64-5717-4562-b3fc-2c963f66afa6"
        (.error "Weaviate connection refused") =
      .httpError 500 "Weaviate connection refused" := by
  rfl

/-- C1: for a fixed user field and a fixed first qualifying user message
(trimmed length above 10), any two resolver calls with no explicit session
key in body or headers return the same result — the essence-based
resolution path is a pure function of the user and that message, with no
dependence on the clock, the timestamp or the uuid source. -/
theorem essence_session_deterministic (u s : String)
    (r1 r2 : RequestData) (h1 h2 : Option (List (String × String))) (e1 e2 : Env)
    (pre1 rest1 pre2 rest2 : List PyMsg) (m1 m2 : PyMsg)
    (hnb1 : noBodySession r1) (hnb2 : noBodySession r2)
    (_hh1 : noSessionHeader h1) (_hh2 : noSessionHeader h2)
    (hu1 : r1.user = some u) (hu2 : r2.user = some u) (hune : u ≠ "")
    (hm1 : r1.messages = some (pre1 ++ m1 :: rest1))
    (hm2 : r2.messages = some (pre2 ++ m2 :: rest2))
    (hp1 : ∀ x ∈ pre1, skipsCleanly x = true) (hp2 : ∀ x ∈ pre2, skipsCleanly x = true)
    (hq1 : qualifying m1 s) (hq2 : qualifying m2 s) :
    extract_session_from_request r1 h1 e1 = extract_session_from_request r2 h2 e2 := by
  rw [extract_essence r1 h1 e1 u pre1 m1 rest1 s hnb1 hu1 hune hm1 hp1 hq1,
    extract_essence r2 h2 e2 u pre2 m2 rest2 s hnb2 hu2 hune hm2 hp2 hq2]

/-- Witness for C1: two calls with different surrounding messages, headers,
clocks, timestamps and uuid readings, but the same user and the same first
qualifying message, resolve identically. -/
theorem essence_session_deterministic_witness :
    extract_session_from_request
        { user := some "alice", messages := some [shortMsg, essenceMsg] } none sampleEnv =
      extract_session_from_request
        { user := some "alice", messages := some [essenceMsg, asstMsg] }
        (some [("x-api-key", "k1")]) sampleEnvB :=
  essence_session_deterministic "alice" "What is quantum computing today"
    { user := some "alice", messages := some [shortMsg, essenceMsg] }
    { user := some "alice", messages := some [essenceMsg, asstMsg] }
    none (some [("x-api-key", "k1")]) sampleEnv sampleEnvB
    [shortMsg] [] [] [asstMsg] essenceMsg essenceMsg
    (by constructor <;> rfl) (by constructor <;> rfl)
    (by constructor) (by decide)
    rfl rfl (by decide) rfl rfl
    (by decide) (by decide) (by decide) (by decide)

/-- C3 (amended): with a messages list and a truthy user field but no
explicit or alternate session key, when the first qualifying user message
(dict entry of role `user`, string content of trimmed length above 10)
has content `s`, the resolver returns
`"conv_" ++ user ++ "_" ++ hash8(user ++ "_" ++ essence)` with the essence
`s` truncated to 200 characters and `hash8` the first 8 hex characters of
the MD5 digest — the digest input joins user and essence with an
underscore. -/
theorem essence_session_formula (req : RequestData)
    (headers : Option (List (String × String))) (env : Env) (u : String)
    (pre : List PyMsg) (m : PyMsg) (rest : List PyMsg) (s : String)
    (hnb : noBodySession req) (hu : req.user = some u) (hune : u ≠ "")
    (hm : req.messages = some (pre ++ m :: rest))
    (hpre : ∀ x ∈ pre, skipsCleanly x = true) (hq : qualifying m s) :
    extract_session_from_request req headers env =
      .ok ("conv_" ++ u ++ "_" ++ hash8 (u ++ "_" ++ take200 s), u, true) :=
  extract_essence req headers env u pre m rest s hnb hu hune hm hpre hq

/-- Witness for C3: the concrete body of `essence_session_deterministic_witness`
resolves to the formula's value. -/
theorem essence_session_formula_witness :
    qualifying essenceMsg "What is quantum computing today" ∧
      extract_session_from_request
          { user := some "alice", messages := some [shortMsg, essenceMsg] } none sampleEnv =
        .ok ("conv_" ++ "alice" ++ "_" ++
          hash8 ("alice" ++ "_" ++ take200 "What is quantum computing today"), "alice", true) :=
  ⟨by decide,
    essence_session_formula
      { user := some "alice", messages := some [shortMsg, essenceMsg] } none sampleEnv
      "alice" [shortMsg] essenceMsg [] "What is quantum computing today"
      (by constructor <;> rfl) rfl (by decide) rfl (by decide) (by decide)⟩

/-- Counterexample to C3 as stated: the code hashes
`f"{user}_{essence}"`, not the plain concatenation `user + essence`; at a
concrete input the two disagree, so the claimed formula (digest of the
concatenation of user and essence) does not match the resolver's output. -/
theorem essence_hash_concatenation_counterexample :
    extract_session_from_request
        { user := some "alice", messages := some [essenceMsg] } none sampleEnv =
      .ok ("conv_alice_" ++ "4ce61738", "alice", true) ∧
    hash8 ("alice" ++ "What is quantum computing today") = "85bfffba" ∧
    extract_session_from_request
        { user := some "alice", messages := some [essenceMsg] } none sampleEnv ≠
      .ok ("conv_alice_" ++ hash8 ("alice" ++ "What is quantum computing today"),
        "alice", true) := by
  exact ⟨by decide, by decide, by decide⟩

theorem method3_some_user (req : RequestData) (env : Env) (u : String)
    (hu : truthyS req.user = some u) :
    method3 req env =
      (if (req.messages.getD []).isEmpty then none
       else
         some (match findEssence (req.messages.getD []) with
           | .error e => .error e
           | .ok (some essence) =>
             .ok ("conv_" ++ u ++ "_" ++ strTake (md5Hex (u ++ "_" ++ essence)) 8, u, true)
           | .ok none =>
             .ok ("user_" ++ u ++ "_" ++ fmtHour env.localNow, u, true))) := by
  unfold method3
  rw [hu]

theorem method3_ok {req : RequestData} {env : Env}
    {r : Except PyErr (String × String × Bool)}
    (hok : contentsOk req = true) (h : method3 req env = some r) :
    ∃ t, r = .ok t ∧ t.1 ≠ "" := by
  cases hu : truthyS req.user with
  | none => rw [method3_none_of_no_user req env hu] at h; cases h
  | some u =>
    rw [method3_some_user req env u hu] at h
    by_cases he : (req.messages.getD []).isEmpty = true
    · rw [if_pos he] at h; cases h
    · rw [if_neg he] at h
      have hconts : ∀ m ∈ req.messages.getD [], contentOk m = true := by
        unfold contentsOk at hok
        simpa [List.all_eq_true] using hok
      obtain ⟨o, ho⟩ := findEssence_total _ hconts
      rw [ho] at h
      cases o with
      | some e =>
        cases h
        refine ⟨_, rfl, ?_⟩
        exact ne_empty_append_left _ _
          (ne_empty_append_left _ _ (ne_empty_append_left _ _ (by decide)))
      | none =>
        cases h
        refine ⟨_, rfl, ?_⟩
        exact ne_empty_append_left _ _
          (ne_empty_append_left _ _ (ne_empty_append_left _ _ (by decide)))

theorem method56_fst_ne (req : RequestData) (env : Env) : (method56 req env).1 ≠ "" := by
  unfold method56
  by_cases hu : (req.user.getD "anonymous" != "anonymous") = true
  · rw [if_pos hu]
    exact ne_empty_append_left _ _
      (ne_empty_append_left _ _ (ne_empty_append_left _ _ (by decide)))
  · rw [if_neg hu]
    exact ne_empty_append_left _ _
      (ne_empty_append_left _ _ (ne_empty_append_left _ _ (by decide)))

/-- C8: when no strategy before the last resort matches (no truthy session
key in the body, no messages-plus-user combination, no session-named
header, user field absent or `'anonymous'`), the resolver synthesizes
`"auto_" ++ unixTimestamp ++ "_" ++ uuid4().hex[:8]` — eight lowercase hex
characters — with user id `"anonymous"`, returning it as an ordinary value
(the ambiguity is never surfaced as an error). -/
theorem last_resort_session (req : RequestData)
    (headers : Option (List (String × String))) (env : Env)
    (hnb : noBodySession req) (hh : noSessionHeader headers)
    (hus : req.user = none ∨ req.user = some "anonymous")
    (hmu : req.messages.getD [] = [] ∨ req.user = none)
    (huu : uuidHexOk env.uuidHex) :
    extract_session_from_request req headers env =
      .ok ("auto_" ++ toString env.unixTimestamp ++ "_" ++ strTake env.uuidHex 8,
        "anonymous", true) ∧
    (strTake env.uuidHex 8).length = 8 ∧
    (strTake env.uuidHex 8).data.all isHexDigitChar = true := by
  obtain ⟨hlen, hall⟩ := huu
  refine ⟨extract_auto req headers env hnb hh hus hmu, ?_, ?_⟩
  · show (env.uuidHex.data.take 8).length = 8
    rw [List.length_take]
    have h32 : env.uuidHex.data.length = 32 := hlen
    rw [h32]
    decide
  · show (env.uuidHex.data.take 8).all isHexDigitChar = true
    simp only [List.all_eq_true] at hall ⊢
    intro x hx
    exact hall x (List.mem_of_mem_take hx)

/-- Witness for C8 on an empty body with a non-session header. -/
theorem last_resort_session_witness :
    noBodySession ({} : RequestData) ∧
      (extract_session_from_request {} (some [("content-type", "application/json")]) sampleEnv =
          .ok ("auto_" ++ toString sampleEnv.unixTimestamp ++ "_" ++ strTake sampleEnv.uuidHex 8,
            "anonymous", true) ∧
        (strTake sampleEnv.uuidHex 8).length = 8 ∧
        (strTake sampleEnv.uuidHex 8).data.all isHexDigitChar = true) :=
  ⟨by decide,
    last_resort_session {} (some [("content-type", "application/json")]) sampleEnv
      (by decide) (by decide) (Or.inl rfl) (Or.inl rfl) ⟨rfl, rfl⟩⟩

/-- C9 (amended): for every request body whose message contents are
strings wherever the essence loop inspects them, the resolver is total and
returns a non-empty session id; with a truthy non-string content in the
first inspected position it instead raises `AttributeError`. -/
theorem resolver_total_nonempty (req : RequestData)
    (headers : Option (List (String × String))) (env : Env)
    (hok : contentsOk req = true) :
    ∃ t : String × String × Bool,
      extract_session_from_request req headers env = .ok t ∧ t.1 ≠ "" := by
  rw [extract_eq]
  cases h1 : truthyS req.session_id with
  | some sid =>
    exact ⟨(sid, req.user_id.getD "anonymous", false), rfl, truthyS_some_ne h1⟩
  | none =>
    cases h2 : method2sid req with
    | some sid => exact ⟨(sid, method2uid req, true), rfl, method2sid_some_ne h2⟩
    | none =>
      cases h3 : method3 req env with
      | some r =>
        obtain ⟨t, ht, hne⟩ := method3_ok hok h3
        exact ⟨t, by rw [ht], hne⟩
      | none =>
        cases h4 : method4 headers (method2uid req) with
        | some t => exact ⟨t, rfl, method4_some_ne h4⟩
        | none => exact ⟨method56 req env, rfl, method56_fst_ne req env⟩

/-- Witness for C9 on a well-typed body. -/
theorem resolver_total_nonempty_witness :
    contentsOk { user := some "alice", messages := some [shortMsg, asstMsg] } = true ∧
      ∃ t : String × String × Bool,
        extract_session_from_request
            { user := some "alice", messages := some [shortMsg, asstMsg] }
            none sampleEnv = .ok t ∧ t.1 ≠ "" :=
  ⟨by decide,
    resolver_total_nonempty { user := some "alice", messages := some [shortMsg, asstMsg] }
      none sampleEnv (by decide)⟩

/-- Counterexample to C9 as stated: a request body dictionary whose first
truthy user-message content is the integer 5 makes the resolver raise
`AttributeError` (from `content.strip()`), so the resolver is not total on
arbitrary body dictionaries. -/
theorem resolver_raises_counterexample :
    extract_session_from_request
        { user := some "alice", messages := some [badMsg] } none sampleEnv =
      .error .attributeError := by
  decide

/-- C4 (amended): for a non-anonymous user with no explicit session key,
the fallback session id is bucketed by the server-local hour read from
`datetime.now()` — prefix `user_` when a truthy messages list is present
with no qualifying essence, prefix `flow_` when messages are absent — so
two calls whose local-hour buckets agree return the same id, and a call one
hour later (on a valid calendar time) returns a different id. -/
theorem hour_bucketed_fallback :
    (∀ (req : RequestData) (headers : Option (List (String × String))) (env1 env2 : Env)
       (u : String) (msgs : List PyMsg),
       noBodySession req → req.user = some u → u ≠ "" → u ≠ "anonymous" →
       req.messages = some msgs → msgs ≠ [] → (∀ x ∈ msgs, skipsCleanly x = true) →
       fmtHour env1.localNow = fmtHour env2.localNow →
       extract_session_from_request req headers env1 =
         .ok ("user_" ++ u ++ "_" ++ fmtHour env1.localNow, u, true) ∧
       extract_session_from_request req headers env1 =
         extract_session_from_request req headers env2) ∧
    (∀ (req : RequestData) (headers : Option (List (String × String))) (env1 env2 : Env)
       (u : String),
       noBodySession req → noSessionHeader headers → req.messages.getD [] = [] →
       req.user = some u → u ≠ "anonymous" →
       fmtHour env1.localNow = fmtHour env2.localNow →
       extract_session_from_request req headers env1 =
         .ok ("flow_" ++ u ++ "_" ++ fmtHour env1.localNow, u, true) ∧
       extract_session_from_request req headers env1 =
         extract_session_from_request req headers env2) ∧
    (∀ (req : RequestData) (headers : Option (List (String × String))) (env1 env2 : Env)
       (u : String) (msgs : List PyMsg),
       noBodySession req → req.user = some u → u ≠ "" → u ≠ "anonymous" →
       req.messages = some msgs → msgs ≠ [] → (∀ x ∈ msgs, skipsCleanly x = true) →
       validDT env1.localNow → env2.localNow = addHour env1.localNow →
       extract_session_from_request req headers env1 ≠
         extract_session_from_request req headers env2) ∧
    (∀ (req : RequestData) (headers : Option (List (String × String))) (env1 env2 : Env)
       (u : String),
       noBodySession req → noSessionHeader headers → req.messages.getD [] = [] →
       req.user = some u → u ≠ "anonymous" →
       validDT env1.localNow → env2.localNow = addHour env1.localNow →
       extract_session_from_request req headers env1 ≠
         extract_session_from_request req headers env2) := by
  refine ⟨?_, ?_, ?_, ?_⟩
  · intro req headers env1 env2 u msgs hnb hu hune hua hm hne hskip hfmt
    refine ⟨extract_user_fallback req headers env1 u msgs hnb hu hune hm hne hskip, ?_⟩
    rw [extract_user_fallback req headers env1 u msgs hnb hu hune hm hne hskip,
      extract_user_fallback req headers env2 u msgs hnb hu hune hm hne hskip, hfmt]
  · intro req headers env1 env2 u hnb hh hmsg hu hua hfmt
    refine ⟨extract_flow req headers env1 u hnb hh hmsg hu hua, ?_⟩
    rw [extract_flow req headers env1 u hnb hh hmsg hu hua,
      extract_flow req headers env2 u hnb hh hmsg hu hua, hfmt]
  · intro req headers env1 env2 u msgs hnb hu hune hua hm hne hskip hv he2
    rw [extract_user_fallback req headers env1 u msgs hnb hu hune hm hne hskip,
      extract_user_fallback req headers env2 u msgs hnb hu hune hm hne hskip]
    have hb : fmtHour env1.localNow ≠ fmtHour env2.localNow := by
      rw [he2]
      exact (fmtHour_addHour_ne env1.localNow hv).symm
    intro heq
    simp only [Except.ok.injEq, Prod.mk.injEq] at heq
    exact append_right_ne _ _ _ hb heq.1
  · intro req headers env1 env2 u hnb hh hmsg hu hua hv he2
    rw [extract_flow req headers env1 u hnb hh hmsg hu hua,
      extract_flow req headers env2 u hnb hh hmsg hu hua]
    have hb : fmtHour env1.localNow ≠ fmtHour env2.localNow := by
      rw [he2]
      exact (fmtHour_addHour_ne env1.localNow hv).symm
    intro heq
    simp only [Except.ok.injEq, Prod.mk.injEq] at heq
    exact append_right_ne _ _ _ hb heq.1

/-- Witness for C4: two same-local-hour calls agree on the `flow_` id, and
a call with the local clock one hour later differs. -/
theorem hour_bucketed_fallback_witness :
    (extract_session_from_request { user := some "alice" } none sampleEnv =
        .ok ("flow_" ++ "alice" ++ "_" ++ fmtHour sampleEnv.localNow, "alice", true) ∧
      extract_session_from_request { user := some "alice" } none sampleEnv =
        extract_session_from_request { user := some "alice" } none sampleEnvB) ∧
    extract_session_from_request { user := some "alice" } none sampleEnv ≠
      extract_session_from_request { user := some "alice" } none sampleEnvNextHour :=
  ⟨hour_bucketed_fallback.2.1 { user := some "alice" } none sampleEnv sampleEnvB "alice"
      (by decide) (by decide) rfl rfl (by decide) rfl,
    hour_bucketed_fallback.2.2.2 { user := some "alice" } none sampleEnv sampleEnvNextHour
      "alice" (by decide) (by decide) rfl rfl (by decide) (by decide) (by decide)⟩

/-- Counterexample to C4 as stated: on a host whose local clock is UTC+7,
the fallback id's suffix is the local hour (`datetime.now()`), not the UTC
hour the claim names — the resolver's output disagrees with the
UTC-suffixed id. -/
theorem hour_bucket_utc_counterexample :
    extract_session_from_request { user := some "alice" } none sampleEnv =
      .ok ("flow_alice_" ++ fmtHour sampleEnv.localNow, "alice", true) ∧
    fmtHour sampleEnv.localNow = "20250601_12" ∧
    fmtHour sampleEnv.utcNow = "20250601_05" ∧
    extract_session_from_request { user := some "alice" } none sampleEnv ≠
      .ok ("flow_alice_" ++ fmtHour sampleEnv.utcNow, "alice", true) := by
  exact ⟨by decide, by decide, by decide, by decide⟩
